import Mathlib

/-!
Verification development for the `cop4813` service manager
(`src/service-manager.go`).  The Go supervisor is shallowly embedded:
pure decision logic becomes Lean functions, the stateful parts
(database handle ownership, the child-process lifecycle, startup
ordering) become explicit state passing and event traces.  Every
definition mirrors the corresponding Go function; time is modelled in
whole seconds, handles as natural-number identifiers.
-/

namespace ServiceManager

/-! ## Configuration (`Config`, `loadConfig` defaults) -/

/-- The `Config.Server` section of the YAML configuration. -/
structure ServerConfig where
  port : String
  pythonPath : String
  scriptPath : String
  readTimeout : Nat
  writeTimeout : Nat
  idleTimeout : Nat
  deriving Repr, DecidableEq

/-- The `Config.Database` section of the YAML configuration. -/
structure DatabaseConfig where
  host : String
  dbPort : Int
  user : String
  password : String
  dbName : String
  sslMode : String
  checkInterval : Nat
  maxRetries : Nat
  deriving Repr, DecidableEq

/-- The full configuration structure (`Config` in the Go source). -/
structure Config where
  server : ServerConfig
  database : DatabaseConfig
  loggingLevel : String
  deriving Repr, DecidableEq

/-- One second, the time unit of the embedding (Go `time.Second`). -/
def second : Nat := 1

/-- Default application of `loadConfig` (service-manager.go lines
113-141): every unset (zero/empty) field is replaced by its documented
default. -/
def applyDefaults (c : Config) : Config :=
  { c with
    server :=
      { c.server with
        port := if c.server.port = "" then "8080" else c.server.port
        pythonPath :=
          if c.server.pythonPath = "" then "python3" else c.server.pythonPath
        scriptPath :=
          if c.server.scriptPath = "" then "server.py" else c.server.scriptPath
        readTimeout :=
          if c.server.readTimeout = 0 then 30 * second else c.server.readTimeout
        writeTimeout :=
          if c.server.writeTimeout = 0 then 30 * second else c.server.writeTimeout
        idleTimeout :=
          if c.server.idleTimeout = 0 then 60 * second else c.server.idleTimeout }
    database :=
      { c.database with
        checkInterval :=
          if c.database.checkInterval = 0 then 30 * second
          else c.database.checkInterval
        maxRetries :=
          if c.database.maxRetries = 0 then 3 else c.database.maxRetries
        sslMode :=
          if c.database.sslMode = "" then "disable" else c.database.sslMode } }

/-- The hard-coded liveness port (`healthPort := "9090"`,
service-manager.go line 338). -/
def healthPort : String := "9090"

/-- The address the liveness listener binds
(`Addr: ":" + healthPort`); it does not depend on the configuration. -/
def healthCheckAddr (_ : Config) : String := ":" ++ healthPort

/-! ## Child exit handling (`runWebServer`, lines 270-295) -/

/-- Result of `sm.pythonCmd.Wait()` as the supervisor inspects it:
`ok` is a `nil` error (exit code 0), `exitErr c` is an
`*exec.ExitError` carrying exit code `c`, `otherErr` is any other
non-nil error. -/
inductive WaitResult where
  | ok : WaitResult
  | exitErr : Int → WaitResult
  | otherErr : WaitResult
  deriving Repr, DecidableEq

/-- Whether the exit-inspection branch of `runWebServer`
(lines 270-295) calls `sm.cancel()`: the `switch exitCode` treats
0 as graceful and 1, 2 and every other code as fatal. -/
def cancelOnExit : WaitResult → Bool
  | WaitResult.ok => false
  | WaitResult.otherErr => false
  | WaitResult.exitErr c =>
    if c = 0 then false
    else if c = 1 then true
    else if c = 2 then true
    else true

/-- Log wording chosen by the `switch exitCode` (lines 279-291);
only the wording differs between the non-zero codes. -/
def exitLogLine : Int → String
  | 0 => "Python server shut down gracefully"
  | 1 => "Python server crashed, triggering service shutdown"
  | 2 => "Python server configuration error, triggering service shutdown"
  | _ => "Python server unexpected exit code, triggering service shutdown"

/-! ## Cancellation-first branch of `runWebServer` (lines 296-319) -/

/-- The 30-second grace period (`time.NewTimer(30 * time.Second)`). -/
def gracePeriodSeconds : Nat := 30 * second

/-- Actions observable when cancellation fires while the child runs:
the `Process.Kill` issued by the `exec` package itself (the child was
created with `exec.CommandContext(ctx, ...)` at line 239, `ctx`
derived from `sm.ctx` at line 235, and `CommandContext` kills the
process as soon as its context is done), the handler's SIGTERM
(line 301), and the handler's own `Process.Kill` (line 316). -/
inductive CancelAction where
  | watchdogKill : CancelAction
  | sendSigterm : CancelAction
  | handlerKill : CancelAction
  deriving Repr, DecidableEq

/-- What happens when the shared cancellation fires while the child
is running, as a list of (seconds after cancellation, action) pairs.
Two mechanisms react at once.  First, `exec.CommandContext` (line
239) calls `Process.Kill` immediately — at time 0, unconditionally.
Second, the `<-sm.ctx.Done()` branch (lines 296-319) sends SIGTERM
(time 0, if the handle is non-nil) and then races a 30-second timer
against the child's exit; `killExitDelay` is the number of seconds
after cancellation at which `Wait` returns for the killed child, and
only if even that exceeds the grace period does line 316's
`Process.Kill` run when the timer fires. -/
def cancelBranch (processNonNil : Bool) (killExitDelay : Nat) :
    List (Nat × CancelAction) :=
  ((0, CancelAction.watchdogKill) ::
    (if processNonNil then [(0, CancelAction.sendSigterm)] else [])) ++
  (if killExitDelay < gracePeriodSeconds then []
   else if processNonNil then
     [(gracePeriodSeconds, CancelAction.handlerKill)]
   else [])

/-! ## Liveness endpoint (`healthHandler`, lines 451-487) -/

/-- The response assembled by `healthHandler`: the HTTP status code
and the JSON object written by the final `fmt.Fprintf`, as a
key/value list in print order. -/
structure HealthResponse where
  statusCode : Nat
  body : List (String × String)
  deriving Repr, DecidableEq

/-- Go's `%t` formatting of a boolean. -/
def boolField : Bool → String
  | true => "true"
  | false => "false"

/-- Embedding of `healthHandler` (lines 451-487).  Inputs: whether the bounded
(2s) `PingContext` on `sm.db` succeeds, whether `sm.pythonCmd` and
`sm.pythonCmd.Process` are non-nil, and the outcome of the HTTP GET
to the child's own `/health` (`none` = transport error, `some code` =
a response with that status).  The probe is only issued when the
handle check passes. -/
def healthHandler (dbPingOk cmdNonNil processNonNil : Bool)
    (probe : Option Nat) : HealthResponse :=
  let dbHealthy := dbPingOk
  let pythonHealthy := cmdNonNil && processNonNil
  let pythonHealthy :=
    if pythonHealthy then
      match probe with
      | none => false
      | some code => code == 200
    else pythonHealthy
  let status := if !dbHealthy || !pythonHealthy then "unhealthy" else "healthy"
  let statusCode := if !dbHealthy || !pythonHealthy then 503 else 200
  { statusCode := statusCode
    body := [("status", status), ("database", boolField dbHealthy),
             ("python_server", boolField pythonHealthy)] }

/-! ## Database handle ownership (`initDatabase`, `reconnectDatabase`,
`checkDatabaseHealth`) -/

/-- The database-relevant part of the `ServiceManager` state: `db` is
`sm.db` (a handle identifier, `none` for the nil zero value),
`openHandles` is the list of handles that `sql.Open` has returned and
`Close` has not yet been called on, and `nextId` supplies fresh
handle identifiers. -/
structure DBState where
  db : Option Nat
  openHandles : List Nat
  nextId : Nat
  deriving Repr, DecidableEq

/-- State with `sm.db = nil` and nothing open: the state before `Start`. -/
def DBState.initial : DBState := { db := none, openHandles := [], nextId := 0 }

/-- Embedding of `initDatabase` (lines 174-217).  `openOk` models `sql.Open`
succeeding, `pingOk` the 5-second `PingContext`.  On open failure the
error is returned with no handle created; on ping failure the freshly
opened handle is closed (`db.Close()`) and the error returned; on
success `sm.db` is assigned the new handle — the code performs no
other close. -/
def initDatabase (openOk pingOk : Bool) (s : DBState) : DBState × Bool :=
  if !openOk then (s, false)
  else
    let h := s.nextId
    let s1 : DBState :=
      { s with openHandles := s.openHandles ++ [h], nextId := s.nextId + 1 }
    if !pingOk then
      ({ s1 with openHandles := s1.openHandles.erase h }, false)
    else
      ({ s1 with db := some h }, true)

/-- Observable events of the reconnection loop: a numbered connection
attempt (1-based, as logged by `Reconnection attempt %d failed`) and a
`time.Sleep` of the given number of seconds. -/
inductive RetryEvent where
  | attempt : Nat → RetryEvent
  | sleep : Nat → RetryEvent
  deriving Repr, DecidableEq

/-- Loop body of `reconnectDatabase` (lines 420-429), driven by the
per-attempt outcome `outcome i = (openOk, pingOk)` of the `i`-th
(0-based) call to `initDatabase`.  `fuel` is the number of loop
iterations remaining (`maxRetries - i`).  Returns the event trace,
the final state, and whether reconnection succeeded. -/
def reconnectGo (outcome : Nat → Bool × Bool) :
    Nat → Nat → DBState → List RetryEvent × DBState × Bool
  | _, 0, s => ([], s, false)
  | i, fuel + 1, s =>
    let r := initDatabase (outcome i).1 (outcome i).2 s
    if r.2 then ([RetryEvent.attempt (i + 1)], r.1, true)
    else
      let rest := reconnectGo outcome (i + 1) fuel r.1
      (RetryEvent.attempt (i + 1) :: RetryEvent.sleep ((i + 1) * second) ::
        rest.1, rest.2.1, rest.2.2)

/-- Embedding of `reconnectDatabase` (lines 417-432): up to `maxRetries` calls to
`initDatabase`, sleeping `(i+1) * time.Second` after the (0-based)
`i`-th failed attempt; returns an error (`false`) once the loop
exhausts. -/
def reconnectDatabase (outcome : Nat → Bool × Bool) (maxRetries : Nat)
    (s : DBState) : List RetryEvent × DBState × Bool :=
  reconnectGo outcome 0 maxRetries s

/-- Embedding of `checkDatabaseHealth` (lines 402-414), returning the new state and
whether the shared cancellation was triggered: on ping failure it
calls `reconnectDatabase` and, whatever the result, only logs —
no path calls `sm.cancel()`. -/
def checkDatabaseHealth (pingOk : Bool) (outcome : Nat → Bool × Bool)
    (maxRetries : Nat) (s : DBState) : DBState × Bool :=
  if pingOk then (s, false)
  else ((reconnectDatabase outcome maxRetries s).2.1, false)

/-! ## Orchestration (`Start`, lines 146-171) and the child
supervisor's startup checks (`runWebServer`, lines 220-262) -/

/-- Events of the combined startup sequence: `Start` launching the
long-running goroutines, and the script-existence / spawn phase of
`runWebServer`. -/
inductive SysEvent where
  | initDB : SysEvent
  | launchDBMonitor : SysEvent
  | launchHealthServer : SysEvent
  | launchWebServer : SysEvent
  | launchSignalWatcher : SysEvent
  | scriptMissing : SysEvent
  | spawnChild : SysEvent
  | cancel : SysEvent
  deriving Repr, DecidableEq

/-- The startup phase of `runWebServer` (lines 220-262): if
`os.Stat(ScriptPath)` reports the script missing, it logs, calls
`sm.cancel()` and returns without creating the command; otherwise the
command is prepared and `Start`ed — a failed `Start` also calls
`sm.cancel()`. -/
def webServerStartup (scriptExists spawnOk : Bool) : List SysEvent :=
  if !scriptExists then [SysEvent.scriptMissing, SysEvent.cancel]
  else if !spawnOk then [SysEvent.cancel]
  else [SysEvent.spawnChild]

/-- Embedding of `Start` (lines 146-171) followed by the startup phase of the
`runWebServer` goroutine: `initDatabase` is synchronous and an error
there returns before any goroutine is launched; on success the
database monitor, health-check server, web-server and signal-watcher
goroutines are launched in that order, and the web-server goroutine
then performs its script check.  Returns the event trace, the
database state, and whether `Start` returned an error. -/
def startSequence (openOk pingOk scriptExists spawnOk : Bool)
    (s : DBState) : List SysEvent × DBState × Bool :=
  let (s1, ok) := initDatabase openOk pingOk s
  if !ok then ([SysEvent.initDB], s1, false)
  else
    ([SysEvent.initDB, SysEvent.launchDBMonitor, SysEvent.launchHealthServer,
      SysEvent.launchWebServer, SysEvent.launchSignalWatcher] ++
      webServerStartup scriptExists spawnOk, s1, true)

/-! ## The child-process handle over the supervisor's lifetime -/

/-- Lifecycle events of the child, in the order `runWebServer`
produces them. -/
inductive SupEvent where
  | prepareCmd : SupEvent
  | startChild : SupEvent
  | childExited : SupEvent
  deriving Repr, DecidableEq

/-- Effect of each lifecycle event on `sm.pythonCmd`.  The single
assignment in the source is line 239
(`sm.pythonCmd = exec.CommandContext(...)`); no statement anywhere in
the file sets it back to nil. -/
def stepPythonCmd (cmd : Option Nat) : SupEvent → Option Nat
  | SupEvent.prepareCmd => some 0
  | SupEvent.startChild => cmd
  | SupEvent.childExited => cmd

/-- Value of `sm.pythonCmd` after a sequence of lifecycle events, starting from
the nil zero value. -/
def pythonCmdAfter (evs : List SupEvent) : Option Nat :=
  evs.foldl stepPythonCmd none

/-- The event sequence of a run in which the child starts and later
exits on its own. -/
def childFullLife : List SupEvent :=
  [SupEvent.prepareCmd, SupEvent.startChild, SupEvent.childExited]

/-! ## Auxiliary definitions for the proofs -/

/-- Whether a retry event is a connection attempt. -/
def RetryEvent.isAttempt : RetryEvent → Bool
  | RetryEvent.attempt _ => true
  | RetryEvent.sleep _ => false

/-- Expected trace of the reconnection loop when every attempt fails:
attempt `i + 1`, sleep `i + 1` seconds, and so on for `fuel`
iterations. -/
def failTrace : Nat → Nat → List RetryEvent
  | _, 0 => []
  | i, fuel + 1 =>
    RetryEvent.attempt (i + 1) :: RetryEvent.sleep ((i + 1) * second) ::
      failTrace (i + 1) fuel

/-- A concrete configuration whose child traffic port is set to the
liveness port. -/
def examplePortNineConfig : Config :=
  { server := { port := "9090", pythonPath := "", scriptPath := "",
                readTimeout := 0, writeTimeout := 0, idleTimeout := 0 }
    database := { host := "", dbPort := 5432, user := "", password := "",
                  dbName := "", sslMode := "", checkInterval := 0,
                  maxRetries := 0 }
    loggingLevel := "" }

/-- A concrete configuration that leaves every defaultable field
unset. -/
def exampleEmptyConfig : Config :=
  { server := { port := "", pythonPath := "", scriptPath := "",
                readTimeout := 0, writeTimeout := 0, idleTimeout := 0 }
    database := { host := "", dbPort := 5432, user := "", password := "",
                  dbName := "", sslMode := "", checkInterval := 0,
                  maxRetries := 0 }
    loggingLevel := "" }

/-! ## Supporting lemmas -/

/-- Lemma: `initDatabase` reports failure whenever the bounded ping fails,
whatever `sql.Open` did. -/
lemma initDatabase_fail_of_ping (openOk : Bool) (s : DBState) :
    (initDatabase openOk false s).2 = false := by
  cases openOk <;> simp [initDatabase]

/-- When every attempt's ping fails, the reconnection loop produces
exactly the expected attempt/sleep trace and reports failure. -/
lemma reconnectGo_fail (outcome : Nat → Bool × Bool)
    (hfail : ∀ i, (outcome i).2 = false) :
    ∀ fuel i s, (reconnectGo outcome i fuel s).1 = failTrace i fuel ∧
      (reconnectGo outcome i fuel s).2.2 = false := by
  intro fuel
  induction fuel with
  | zero => intro i s; exact ⟨rfl, rfl⟩
  | succ f ih =>
    intro i s
    have hp : (initDatabase (outcome i).1 (outcome i).2 s).2 = false := by
      rw [hfail i]; exact initDatabase_fail_of_ping _ s
    obtain ⟨h1, h2⟩ := ih (i + 1) (initDatabase (outcome i).1 (outcome i).2 s).1
    simp [reconnectGo, hp, failTrace, h1, h2]

/-- The all-fail trace contains exactly `fuel` attempts. -/
lemma failTrace_countP (fuel : Nat) : ∀ i,
    (failTrace i fuel).countP RetryEvent.isAttempt = fuel := by
  induction fuel with
  | zero => intro i; rfl
  | succ f ih =>
    intro i
    simp [failTrace, List.countP_cons, ih, RetryEvent.isAttempt]

/-- In the all-fail trace, each attempt `k` that is not the last is
immediately followed by a sleep of `k` seconds and then attempt
`k + 1`. -/
lemma failTrace_adjacent : ∀ fuel i k, i < k → k + 1 ≤ i + fuel →
    ∃ j, (failTrace i fuel).get? j = some (RetryEvent.attempt k) ∧
      (failTrace i fuel).get? (j + 1) =
        some (RetryEvent.sleep (k * second)) ∧
      (failTrace i fuel).get? (j + 2) = some (RetryEvent.attempt (k + 1)) := by
  intro fuel
  induction fuel with
  | zero => intro i k h1 h2; omega
  | succ f ih =>
    intro i k h1 h2
    by_cases hk : k = i + 1
    · subst hk
      obtain ⟨f2, rfl⟩ : ∃ f2, f = f2 + 1 := ⟨f - 1, by omega⟩
      exact ⟨0, rfl, rfl, rfl⟩
    · obtain ⟨j, hj1, hj2, hj3⟩ := ih (i + 1) k (by omega) (by omega)
      exact ⟨j + 2, hj1, hj2, hj3⟩

/-- Once `sm.pythonCmd` is non-nil, every later lifecycle event
leaves it non-nil. -/
lemma foldl_stepPythonCmd_some (evs : List SupEvent) :
    ∀ c : Nat, ∃ d, evs.foldl stepPythonCmd (some c) = some d := by
  induction evs with
  | nil => exact fun c => ⟨c, rfl⟩
  | cons ev rest ih =>
    intro c
    cases ev with
    | prepareCmd => simpa [List.foldl, stepPythonCmd] using ih 0
    | startChild => simpa [List.foldl, stepPythonCmd] using ih c
    | childExited => simpa [List.foldl, stepPythonCmd] using ih c

/-! ## Claims -/

/-- C1: every child exit with a non-zero exit code makes the
supervisor call `sm.cancel()` (codes 1, 2 and all others alike),
while an exit with code 0 — whether seen as a nil `Wait` error or as
exit code 0 — does not trigger cancellation, so the other components
keep running. -/
theorem c1_nonzero_exit_cancels :
    (∀ c : Int, c ≠ 0 → cancelOnExit (WaitResult.exitErr c) = true) ∧
    cancelOnExit WaitResult.ok = false ∧
    cancelOnExit (WaitResult.exitErr 0) = false := by
  refine ⟨fun c hc => ?_, rfl, by decide⟩
  simp only [cancelOnExit, if_neg hc]
  split_ifs <;> rfl

/-- Witness for C1 at exit code 3 and at a graceful exit. -/
theorem c1_nonzero_exit_cancels_witness :
    ((3 : Int) ≠ 0) ∧ cancelOnExit (WaitResult.exitErr 3) = true :=
  ⟨by decide, c1_nonzero_exit_cancels.1 3 (by decide)⟩

/-- C2: contrary to the two-phase-shutdown claim, when cancellation
fires while the child is running the child is forcibly killed at time
0 — the `exec.CommandContext` watchdog calls `Process.Kill` the
instant the context is done, before the 30-second grace period has
elapsed and whatever the child would have done in response to the
SIGTERM that races it.  The explicit SIGTERM/grace-period code in
lines 296-319 shows the two-phase shutdown was the intent; the
context-bound child makes its grace timer dead code. -/
theorem c2_forced_kill_is_immediate :
    (∀ killExitDelay,
      (0, CancelAction.watchdogKill) ∈ cancelBranch true killExitDelay) ∧
    0 < gracePeriodSeconds ∧
    gracePeriodSeconds = 30 * second := by
  exact ⟨fun d => List.mem_cons_self _ _, by decide, rfl⟩

/-- C3: `GET /health` answers 200 exactly when the database ping
succeeds and the child is live (non-nil command and process handle,
and the HTTP probe of the child's own health endpoint returns 200);
every other case answers 503; and in both cases the JSON body carries
the boolean fields `database` and `python_server`. -/
theorem c3_health_status (dbPingOk cmdNonNil processNonNil : Bool)
    (probe : Option Nat) :
    ((healthHandler dbPingOk cmdNonNil processNonNil probe).statusCode = 200 ↔
      dbPingOk = true ∧ cmdNonNil = true ∧ processNonNil = true ∧
        probe = some 200) ∧
    ((healthHandler dbPingOk cmdNonNil processNonNil probe).statusCode = 200 ∨
      (healthHandler dbPingOk cmdNonNil processNonNil probe).statusCode =
        503) ∧
    ("database", boolField dbPingOk) ∈
      (healthHandler dbPingOk cmdNonNil processNonNil probe).body ∧
    (("python_server", boolField true) ∈
        (healthHandler dbPingOk cmdNonNil processNonNil probe).body ∨
      ("python_server", boolField false) ∈
        (healthHandler dbPingOk cmdNonNil processNonNil probe).body) := by
  rcases probe with _ | n
  · cases dbPingOk <;> cases cmdNonNil <;> cases processNonNil <;>
      simp [healthHandler, boolField]
  · by_cases hn : n = 200
    · subst hn
      cases dbPingOk <;> cases cmdNonNil <;> cases processNonNil <;>
        simp [healthHandler, boolField]
    · have hb : (n == 200) = false := by simpa using hn
      cases dbPingOk <;> cases cmdNonNil <;> cases processNonNil <;>
        simp [healthHandler, boolField, hb, hn]

/-- C5: the periodic database health check never triggers the shared
cancellation, whatever the ping outcome and however all the
reconnection attempts fare. -/
theorem c5_db_failure_never_cancels (pingOk : Bool)
    (outcome : Nat → Bool × Bool) (maxRetries : Nat) (s : DBState) :
    (checkDatabaseHealth pingOk outcome maxRetries s).2 = false := by
  cases pingOk <;> simp [checkDatabaseHealth]

/-- C4: with `max_retries = N` and a permanently unreachable database
(every attempt's ping fails), the reconnection loop makes exactly `N`
attempts, sleeps `k` seconds between failed attempt `k` and attempt
`k + 1`, and then stops and returns an error. -/
theorem c4_bounded_retries (N : Nat) (outcome : Nat → Bool × Bool)
    (hfail : ∀ i, (outcome i).2 = false) :
    ((reconnectDatabase outcome N DBState.initial).1.countP
      RetryEvent.isAttempt = N) ∧
    ((reconnectDatabase outcome N DBState.initial).2.2 = false) ∧
    (∀ k, 1 ≤ k → k + 1 ≤ N →
      ∃ j, ((reconnectDatabase outcome N DBState.initial).1.get? j =
          some (RetryEvent.attempt k)) ∧
        ((reconnectDatabase outcome N DBState.initial).1.get? (j + 1) =
          some (RetryEvent.sleep (k * second))) ∧
        ((reconnectDatabase outcome N DBState.initial).1.get? (j + 2) =
          some (RetryEvent.attempt (k + 1)))) := by
  obtain ⟨htr, hres⟩ := reconnectGo_fail outcome hfail N 0 DBState.initial
  refine ⟨?_, hres, fun k hk1 hk2 => ?_⟩
  · rw [reconnectDatabase, htr]; exact failTrace_countP N 0
  · rw [reconnectDatabase, htr]
    exact failTrace_adjacent N 0 k (by omega) (by omega)

/-- Witness for C4 at `N = 3` with every ping failing. -/
theorem c4_bounded_retries_witness :
    (∀ i : Nat, ((fun _ : Nat => (true, false)) i).2 = false) ∧
    ((reconnectDatabase (fun _ : Nat => (true, false)) 3
      DBState.initial).1.countP RetryEvent.isAttempt = 3) :=
  ⟨fun _ => rfl, (c4_bounded_retries 3 (fun _ => (true, false))
    (fun _ => rfl)).1⟩

/-- C6: if the startup database open or its bounded ping fails,
`Start` returns an error, no long-running component is launched, the
handle opened during the failed attempt is closed, and `sm.db` stays
nil. -/
theorem c6_startup_db_failure_aborts
    (openOk pingOk scriptExists spawnOk : Bool)
    (h : openOk = false ∨ pingOk = false) :
    ((startSequence openOk pingOk scriptExists spawnOk
      DBState.initial).2.2 = false) ∧
    ((startSequence openOk pingOk scriptExists spawnOk
      DBState.initial).1 = [SysEvent.initDB]) ∧
    (SysEvent.launchDBMonitor ∉ (startSequence openOk pingOk scriptExists
      spawnOk DBState.initial).1) ∧
    (SysEvent.launchHealthServer ∉ (startSequence openOk pingOk scriptExists
      spawnOk DBState.initial).1) ∧
    (SysEvent.launchWebServer ∉ (startSequence openOk pingOk scriptExists
      spawnOk DBState.initial).1) ∧
    ((startSequence openOk pingOk scriptExists spawnOk
      DBState.initial).2.1.db = none) ∧
    ((startSequence openOk pingOk scriptExists spawnOk
      DBState.initial).2.1.openHandles = []) := by
  rcases h with h | h <;> subst h <;>
    cases scriptExists <;> cases spawnOk <;>
      first
      | decide
      | (cases pingOk <;> decide)
      | (cases openOk <;> decide)

/-- Witness for C6: a reachable open whose ping fails. -/
theorem c6_startup_db_failure_aborts_witness :
    ((true : Bool) = false ∨ (false : Bool) = false) ∧
    ((startSequence true false true true DBState.initial).2.2 = false) :=
  ⟨Or.inr rfl, (c6_startup_db_failure_aborts true false true true
    (Or.inr rfl)).1⟩

/-- C7 counterexample: in the run where the database is fine but the
child's entry script is missing, the database monitor (and the other
goroutines) are nevertheless launched by `Start` before the script
check fires cancellation — the manager does not abort "before any
component starts". -/
theorem c7_counterexample_components_started :
    SysEvent.launchDBMonitor ∈
      (startSequence true true false true DBState.initial).1 ∧
    SysEvent.launchHealthServer ∈
      (startSequence true true false true DBState.initial).1 ∧
    SysEvent.cancel ∈
      (startSequence true true false true DBState.initial).1 := by
  decide

/-- C7 amended: when the entry script is missing (and database init
succeeded, so `Start` returned nil), the child process is never
spawned and global cancellation is triggered — but only from inside
the child-supervisor goroutine, after the database monitor and the
liveness server have already been launched. -/
theorem c7_amended_missing_script (spawnOk : Bool) :
    (SysEvent.spawnChild ∉
      (startSequence true true false spawnOk DBState.initial).1) ∧
    (SysEvent.cancel ∈
      (startSequence true true false spawnOk DBState.initial).1) ∧
    (SysEvent.launchDBMonitor ∈
      (startSequence true true false spawnOk DBState.initial).1) ∧
    (SysEvent.launchHealthServer ∈
      (startSequence true true false spawnOk DBState.initial).1) := by
  cases spawnOk <;> decide

/-- C8 counterexample: after the child has started and exited,
`sm.pythonCmd` is still non-nil — the handle is never cleared back to
nil on exit. -/
theorem c8_counterexample_handle_not_cleared :
    pythonCmdAfter childFullLife ≠ none := by
  decide

/-- C8 amended: the handle is nil before the command is prepared and
non-nil from then on — including after the child exits, since no code
path clears it; hence the endpoint's non-nil check alone does not
track liveness, and a dead child is reported unhealthy only through
the failing HTTP probe. -/
theorem c8_amended_handle_never_cleared :
    pythonCmdAfter [] = none ∧
    (∃ d, pythonCmdAfter [SupEvent.prepareCmd, SupEvent.startChild] =
      some d) ∧
    (∀ evs more c, pythonCmdAfter evs = some c →
      ∃ d, pythonCmdAfter (evs ++ more) = some d) ∧
    (∃ d, pythonCmdAfter childFullLife = some d) ∧
    (healthHandler true true true none).statusCode = 503 ∧
    ("python_server", boolField false) ∈
      (healthHandler true true true none).body := by
  refine ⟨rfl, ⟨0, rfl⟩, fun evs more c h => ?_, ⟨0, rfl⟩, rfl, by decide⟩
  rw [pythonCmdAfter, List.foldl_append]
  rw [pythonCmdAfter] at h
  rw [h]
  exact foldl_stepPythonCmd_some more c

/-- Witness for C8 amended: a prepared handle stays set across the
child's exit. -/
theorem c8_amended_handle_never_cleared_witness :
    pythonCmdAfter [SupEvent.prepareCmd] = some 0 ∧
    (∃ d, pythonCmdAfter ([SupEvent.prepareCmd] ++ [SupEvent.childExited]) =
      some d) :=
  ⟨rfl, c8_amended_handle_never_cleared.2.2.1
    [SupEvent.prepareCmd] [SupEvent.childExited] 0 rfl⟩

/-- C9 counterexample: starting from the state after a successful
`initDatabase` (handle 0 open and installed), a ping failure followed
by a first-attempt successful reconnection installs handle 1 while
handle 0 is still open — two open handles, the old one never
closed. -/
theorem c9_counterexample_two_open_handles :
    ((checkDatabaseHealth false (fun _ => (true, true)) 3
      { db := some 0, openHandles := [0], nextId := 1 }).1.db = some 1) ∧
    ((0 : Nat) ∈ (checkDatabaseHealth false (fun _ => (true, true)) 3
      { db := some 0, openHandles := [0], nextId := 1 }).1.openHandles) ∧
    ((checkDatabaseHealth false (fun _ => (true, true)) 3
      { db := some 0, openHandles := [0], nextId := 1 }).1.openHandles.length
      = 2) := by
  decide

/-- C9 amended: each reconnection attempt replaces the handle
wholesale — on success `sm.db` becomes a freshly opened handle, and a
failed attempt closes its own fresh handle and leaves `sm.db` alone —
but the previously open handle is never closed when a replacement is
installed: the open-handle list only grows by the new handle. -/
theorem c9_amended_wholesale_but_leaky (s : DBState) (openOk pingOk : Bool)
    (hfresh : s.nextId ∉ s.openHandles) :
    ((initDatabase openOk pingOk s).2 = true →
      (initDatabase openOk pingOk s).1.db = some s.nextId ∧
      (initDatabase openOk pingOk s).1.openHandles =
        s.openHandles ++ [s.nextId]) ∧
    ((initDatabase openOk pingOk s).2 = false →
      (initDatabase openOk pingOk s).1.db = s.db ∧
      (initDatabase openOk pingOk s).1.openHandles = s.openHandles) := by
  cases openOk with
  | false => exact ⟨fun h => by simp [initDatabase] at h, fun _ => ⟨rfl, rfl⟩⟩
  | true =>
    cases pingOk with
    | false =>
      refine ⟨fun h => by simp [initDatabase] at h, fun _ => ⟨rfl, ?_⟩⟩
      show (s.openHandles ++ [s.nextId]).erase s.nextId = s.openHandles
      rw [List.erase_append_right _ hfresh, List.erase_cons_head,
        List.append_nil]
    | true => exact ⟨fun _ => ⟨rfl, rfl⟩, fun h => by simp [initDatabase] at h⟩

/-- Witness for C9 amended at the post-init state. -/
theorem c9_amended_wholesale_but_leaky_witness :
    ((1 : Nat) ∉ [(0 : Nat)]) ∧
    ((initDatabase true true
      { db := some 0, openHandles := [0], nextId := 1 }).2 = true →
      (initDatabase true true
        { db := some 0, openHandles := [0], nextId := 1 }).1.db = some 1 ∧
      (initDatabase true true
        { db := some 0, openHandles := [0], nextId := 1 }).1.openHandles =
        [0] ++ [1]) :=
  ⟨by decide, (c9_amended_wholesale_but_leaky
    { db := some 0, openHandles := [0], nextId := 1 } true true
    (by decide)).1⟩

/-- C10 counterexample: a configuration that sets the child's traffic
port to "9090" survives `loadConfig`'s defaulting unchanged, and then
equals the fixed liveness port — the two ports are not distinct for
every configuration. -/
theorem c10_counterexample_port_clash :
    healthPort = (applyDefaults examplePortNineConfig).server.port ∧
    healthCheckAddr examplePortNineConfig =
      ":" ++ (applyDefaults examplePortNineConfig).server.port := by
  exact ⟨by decide, by decide⟩

/-- C10 amended: the liveness listener binds the fixed port 9090
independent of configuration; for every configuration whose child
traffic port is not set to "9090" — including the default "8080"
applied when the port is unset — the two ports are distinct, but
nothing in the code enforces the distinctness. -/
theorem c10_amended_fixed_liveness_port (c : Config)
    (hp : c.server.port ≠ "9090") :
    healthCheckAddr c = ":" ++ healthPort ∧
    (applyDefaults c).server.port ≠ healthPort ∧
    (c.server.port = "" → (applyDefaults c).server.port = "8080") := by
  refine ⟨rfl, ?_, fun h => by simp [applyDefaults, h]⟩
  by_cases h : c.server.port = ""
  · simp [applyDefaults, h, healthPort]
  · simp [applyDefaults, h, healthPort, hp]

/-- Witness for C10 amended: the all-defaults configuration gets port
"8080", distinct from the liveness port. -/
theorem c10_amended_fixed_liveness_port_witness :
    (exampleEmptyConfig.server.port ≠ "9090") ∧
    ((applyDefaults exampleEmptyConfig).server.port ≠ healthPort) :=
  ⟨by decide, (c10_amended_fixed_liveness_port exampleEmptyConfig
    (by decide)).2.1⟩

end ServiceManager
